import Mathlib

/-!
# Verification of the `dmrlink_ipsc_bridge` voice-call core

Shallow embedding of the voice-call core of `dmrlink_ipsc_bridge.py`:

* `dumpIPSCFrame` — the frame decoder (fixed-offset projection of a raw byte
  buffer into a structured record);
* `group_voice` — the per-timeslot call-state tracker callback;
* the bit-field extractor used on voice-data frames
  (`BitArray` slicing + `tobytes` from the `bitstring` library).

Byte buffers are `List Nat` (each entry one byte); Python exceptions raised by
the helpers are an explicit `Except` error.  Collaborator methods that live in
`dmr_utils.ambe_bridge` / `fne.fne_core` / `ipsc.ipsc_const` (outside the
bridge source file) are modelled from the specification and marked as such.
-/

/-- Python exceptions that the decode path can raise: `int()` on an empty hex
string raises `ValueError`; indexing a byte string past its end raises
`IndexError`. -/
inductive PyExc where
  | valueError
  | indexError
  deriving DecidableEq

instance {ε α : Type} [DecidableEq ε] [DecidableEq α] : DecidableEq (Except ε α)
  | .error e, .error e' =>
    if h : e = e' then isTrue (by rw [h]) else isFalse (by simp [h])
  | .error _, .ok _ => isFalse (by simp)
  | .ok _, .error _ => isFalse (by simp)
  | .ok v, .ok v' =>
    if h : v = v' then isTrue (by rw [h]) else isFalse (by simp [h])

/-- Modelled from the spec: `int_id` (imported from `fne.fne_core`, which is
not under src/) converts a byte-string field into its big-endian integer
value (`int(b2a_hex(x), 16)`); on an empty slice — a field lying entirely
beyond the buffer — the conversion raises `ValueError`. -/
def int_id (bs : List Nat) : Except PyExc Nat :=
  match bs with
  | [] => .error .valueError
  | _ => .ok (bs.foldl (fun a b => 256 * a + b) 0)

/-- Python single-byte indexing `buf[i]`: the byte at `i`, or an uncaught
`IndexError` when `i` is past the end of the buffer. -/
def index1 (bs : List Nat) (i : Nat) : Except PyExc Nat :=
  match bs.get? i with
  | some v => .ok v
  | none => .error .indexError

/-- Modelled from the spec: `BURST_DATA_TYPE['VOICE_HEAD']` from
`ipsc/ipsc_const.py`, which is not under src/; the spec treats the payload
kinds as a protocol constant table, so the four kinds used by the bridge are
given fixed, pairwise distinct byte values here. -/
def VOICE_HEAD : Nat := 1

/-- Modelled from the spec: `BURST_DATA_TYPE['VOICE_TERM']`
(see `VOICE_HEAD`). -/
def VOICE_TERM : Nat := 2

/-- Modelled from the spec: `BURST_DATA_TYPE['SLOT1_VOICE']`
(see `VOICE_HEAD`). -/
def SLOT1_VOICE : Nat := 10

/-- Modelled from the spec: `BURST_DATA_TYPE['SLOT2_VOICE']`
(see `VOICE_HEAD`). -/
def SLOT2_VOICE : Nat := 138

/-- Modelled from the spec: `TS_CALL_MSK` from `ipsc/ipsc_mask.py` (not under
src/); the source comments describe `call_info` as "Bits 6 and 7 defined as TS
and END", so the timeslot mask is bit 6. -/
def TS_CALL_MSK : Nat := 64

/-- Modelled from the spec: `END_MSK` from `ipsc/ipsc_mask.py` (not under
src/); bit 7 of `call_info` marks the final fragment. -/
def END_MSK : Nat := 128

/-- The class attribute `cc = 1` of `ambeIPSC` (the colour code passed to
`begin_call`). -/
def cc : Nat := 1

/-! ## Bit-field extractor

`group_voice` runs `BitArray('0x' + h(_data[33:52]))` and slices bits
`[0:49]`, `[50:99]`, `[100:149]`, converting each slice with `.tobytes()`.
`bitstring` semantics: bit 0 is the most significant bit of byte 0; slicing
clamps to the available bits; `tobytes` zero-pads at the end (least
significant side of the final byte) up to a whole number of bytes. -/

/-- The eight bits of one byte, most significant first (`bitstring` order). -/
def bits8 (b : Nat) : List Bool :=
  (List.range 8).map (fun j => b.testBit (7 - j))

/-- A byte string as a bit list, MSB-first per byte (a `BitArray` built from
the hex dump of the bytes). -/
def bytesToBits (bs : List Nat) : List Bool :=
  bs.flatMap bits8

/-- The value of a bit list read MSB-first. -/
def byteVal (l : List Bool) : Nat :=
  l.foldl (fun a b => 2 * a + b.toNat) 0

/-- Regroup a bit list into bytes, eight bits at a time, MSB-first; any final
group of fewer than eight bits never occurs (callers pad first). -/
def bitsToBytes : List Bool → List Nat
  | b0 :: b1 :: b2 :: b3 :: b4 :: b5 :: b6 :: b7 :: rest =>
      byteVal [b0, b1, b2, b3, b4, b5, b6, b7] :: bitsToBytes rest
  | _ => []

/-- `BitArray.tobytes`: zero-pad the bit list at the end to a whole number of
bytes, then regroup into bytes. -/
def tobytes (l : List Bool) : List Nat :=
  bitsToBytes (l ++ List.replicate ((8 - l.length % 8) % 8) false)

/-- The bit-field extraction of `group_voice` on the 19-byte window
`_data[33:52]`: `_ambe_frame1 = bits[0:49]`, `_ambe_frame2 = bits[50:99]`,
`_ambe_frame3 = bits[100:149]`, each converted with `.tobytes()` and
concatenated. -/
def ambePayload (w : List Nat) : List Nat :=
  let f := bytesToBits w
  tobytes ((f.drop 0).take 49) ++ tobytes ((f.drop 50).take 49) ++
    tobytes ((f.drop 100).take 49)

/-! ## Slot state and events -/

/-- The per-timeslot transmit-slot state used by `group_voice`
(`self.ipsc_ambe.tx[_ts]`).  The fields are the ones the bridge reads and
writes: `stream_id` (the spec's `active_stream_id`, `none` when the slot is
IDLE), `lastSeq` (the spec's `last_sequence`) and `frame_count`. -/
structure TXSlot where
  stream_id : Option Nat
  lastSeq : Nat
  frame_count : Nat
  deriving DecidableEq

/-- Modelled from the spec: a freshly created transmit slot is IDLE with no
active stream (`active_stream_id` is "none") and zeroed counters; the
`AMBE_IPSC` constructor that builds the slots is not under src/. -/
def initSlot : TXSlot :=
  { stream_id := none, lastSeq := 0, frame_count := 0 }

/-- Call-lifecycle and voice-payload events emitted to the vocoder gateway.
`BeginCall` carries the arguments of `AMBE_IPSC.begin_call` in call-site
order (timeslot, source, destination, peer, colour code, sequence, stream);
`VoicePayload` carries the slot's stream tag, the frame's rtp sequence, the
extracted payload, the slot's `frame_count` and the orphaned flag. -/
inductive Event where
  | BeginCall (ts src dst peer cc seq stream : Nat)
  | VoicePayload (stream : Option Nat) (rtp_seq : Nat) (payload : List Nat)
      (frame_count : Nat) (orphaned : Bool)
  | EndCall
  deriving DecidableEq

/-- Modelled from the spec: `AMBE_IPSC.begin_call` (`dmr_utils.ambe_bridge`,
not under src/).  Spec §4.3, IDLE→ACTIVE: capture `active_stream_id` from the
frame's stream identifier, reset `frame_count` to 0, reset `last_sequence`,
and emit a begin-call event carrying (slot, source, destination, peer,
colour code, initial sequence, stream id). -/
def begin_call (ts src dst peer colourCode seq sid : Nat) : TXSlot × List Event :=
  ({ stream_id := some sid, lastSeq := 0, frame_count := 0 },
   [Event.BeginCall ts src dst peer colourCode seq sid])

/-- Modelled from the spec: `AMBE_IPSC.end_call` (`dmr_utils.ambe_bridge`,
not under src/).  Spec §4.3, ACTIVE→IDLE: a voice-term frame emits an
end-call event and clears the busy state; "a second voice-term frame for an
already-IDLE slot is a no-op, not an error". -/
def end_call (s : TXSlot) : TXSlot × List Event :=
  match s.stream_id with
  | some _ => ({ s with stream_id := none }, [Event.EndCall])
  | none => (s, [])

/-- Modelled from the spec: `AMBE_IPSC.export_voice` (`dmr_utils.ambe_bridge`,
not under src/).  Spec §4.3: a voice-data frame "updates `last_sequence`" and
"the resulting payload plus the frame's `rtp_sequence` is emitted as a
voice-payload event tagged with the active stream identifier"; spec §7: a
voice payload arriving while the slot is IDLE is still emitted but flagged
(`OrphanedVoicePayload`, test-visible).  The event also records the slot's
`frame_count`. -/
def export_voice (s : TXSlot) (seq : Nat) (payload : List Nat) : TXSlot × List Event :=
  ({ s with lastSeq := seq },
   [Event.VoicePayload s.stream_id seq payload s.frame_count s.stream_id.isNone])

/-! ## `ambeIPSC.group_voice` -/

/-- `ambeIPSC.group_voice(_src_sub, _dst_sub, _ts, _end, _peerid, _data)`:
the voice-frame callback, acting on the transmit slot selected by `_ts`.
Mirrors the source line by line: `_payload_type = _data[30:31]`;
`_seq = int_id(_data[20:22])`; `_tx_slot.frame_count += 1`; then one branch
per payload type.  The head branch reads `_stream_id = int_id(_data[5:6])`,
calls `begin_call` when the stream differs from the stored one, and sets
`_tx_slot.lastSeq = _seq`; the term branch calls `end_call`; the two
voice-data branches run the bit-field extractor over `_data[33:52]` and hand
the result to `export_voice`.  (`_end` is unused by the source body.) -/
def group_voice (src_sub dst_sub ts : Nat) (_endArg : Bool) (peerid : Nat)
    (d : List Nat) (slot : TXSlot) : Except PyExc (TXSlot × List Event) :=
  let pt := (d.drop 30).take 1
  match int_id ((d.drop 20).take 2) with
  | .error e => .error e
  | .ok seq =>
    let s0 : TXSlot := { slot with frame_count := slot.frame_count + 1 }
    let headRes : Except PyExc (TXSlot × List Event) :=
      if pt = [VOICE_HEAD] then
        match int_id ((d.drop 5).take 1) with
        | .error e => .error e
        | .ok sid =>
          if some sid ≠ s0.stream_id then
            let r := begin_call ts src_sub dst_sub peerid cc seq sid
            .ok ({ r.1 with lastSeq := seq }, r.2)
          else
            .ok ({ s0 with lastSeq := seq }, [])
      else .ok (s0, [])
    match headRes with
    | .error e => .error e
    | .ok sr =>
      let tr := if pt = [VOICE_TERM] then end_call sr.1 else (sr.1, [])
      let vr :=
        if pt = [SLOT1_VOICE] ∨ pt = [SLOT2_VOICE] then
          export_voice tr.1 seq (ambePayload ((d.drop 33).take 19))
        else (tr.1, [])
      .ok (vr.1, sr.2 ++ tr.2 ++ vr.2)

/-- Deliver a list of raw frames to one slot in order, collecting the emitted
events (the single-pipeline processing loop of spec §5). -/
def runFrames (src_sub dst_sub ts : Nat) (endArg : Bool) (peerid : Nat) :
    List (List Nat) → TXSlot → Except PyExc (TXSlot × List Event)
  | [], s => .ok (s, [])
  | d :: rest, s =>
    match group_voice src_sub dst_sub ts endArg peerid d s with
    | .error e => .error e
    | .ok (s1, e1) =>
      match runFrames src_sub dst_sub ts endArg peerid rest s1 with
      | .error e => .error e
      | .ok (s2, e2) => .ok (s2, e1 ++ e2)

/-- A 52-byte test frame: byte 5 is the stream identifier, bytes 20–21 the
big-endian rtp sequence, byte 30 the payload type; every other byte —
including the whole 19-byte vocoder window at 33–51 — is zero. -/
def mkFrame (pt sid seq : Nat) : List Nat :=
  [0, 0, 0, 0, 0, sid, 0, 0, 0, 0, 0, 0, 0, 0, 0, 0, 0, 0, 0, 0,
   seq / 256, seq % 256, 0, 0, 0, 0, 0, 0, 0, 0, pt, 0, 0] ++ List.replicate 19 0

/-! ## `ambeIPSC.dumpIPSCFrame` -/

/-- The extra fields `dumpIPSCFrame` reads in its `VOICE_TERM` branch. -/
structure TermInfo where
  rssi_threshold_and_parity : Nat
  length_to_follow : Nat
  rssi_status : Nat
  slot_type_sync : Nat
  data_size : Nat
  data : List Nat
  full_lc_byte1 : Nat
  full_lc_fid : Nat
  voice_pdu_service_options : Nat
  voice_pdu_dst : Nat
  voice_pdu_src : Nat
  deriving DecidableEq

/-- The structured record `dumpIPSCFrame` projects out of a raw buffer: the
fixed-offset header fields, the payload-type byte, the two `call_info`
flag bits, and the payload-type-dependent extras. -/
structure CallFrame where
  packettype : Nat
  peerid : Nat
  ipsc_seq : Nat
  src_sub : Nat
  dst_sub : Nat
  call_type : Nat
  call_ctrl_info : Nat
  call_info : Nat
  rtp_byte_1 : Nat
  rtp_byte_2 : Nat
  rtp_seq : Nat
  rtp_tmstmp : Nat
  rtp_ssid : Nat
  payload_type : Nat
  ts : Bool
  isEnd : Bool
  term : Option TermInfo
  rtp_len : Option (List Nat)
  ambe : Option (List Nat)
  deriving DecidableEq

/-- `ambeIPSC.dumpIPSCFrame(_frame)`: the frame decoder.  Each field is read
exactly as in the source, in source order: `int_id` over the fixed slices
`[0:1]`, `[1:5]`, `[5:6]`, `[6:9]`, `[9:12]`, `[12:13]`, `[13:17]`,
`[17:18]`, `[18:19]`, `[19:20]`, `[20:22]`, `[22:26]`, `[26:30]`, then the
single byte `_frame[30]`, the two flag bits of `call_info`, and — only for a
`VOICE_TERM` frame — the extra fields at 31–46 (single-byte reads are Python
indexing and can raise `IndexError`).  The `print` calls of the source have
no effect on the returned record and are omitted. -/
def dumpIPSCFrame (f : List Nat) : Except PyExc CallFrame :=
  match int_id ((f.drop 0).take 1) with
  | .error e => .error e
  | .ok _packettype =>
  match int_id ((f.drop 1).take 4) with
  | .error e => .error e
  | .ok _peerid =>
  match int_id ((f.drop 5).take 1) with
  | .error e => .error e
  | .ok _ipsc_seq =>
  match int_id ((f.drop 6).take 3) with
  | .error e => .error e
  | .ok _src_sub =>
  match int_id ((f.drop 9).take 3) with
  | .error e => .error e
  | .ok _dst_sub =>
  match int_id ((f.drop 12).take 1) with
  | .error e => .error e
  | .ok _call_type =>
  match int_id ((f.drop 13).take 4) with
  | .error e => .error e
  | .ok _call_ctrl_info =>
  match int_id ((f.drop 17).take 1) with
  | .error e => .error e
  | .ok _call_info =>
  match int_id ((f.drop 18).take 1) with
  | .error e => .error e
  | .ok _rtp_byte_1 =>
  match int_id ((f.drop 19).take 1) with
  | .error e => .error e
  | .ok _rtp_byte_2 =>
  match int_id ((f.drop 20).take 2) with
  | .error e => .error e
  | .ok _rtp_seq =>
  match int_id ((f.drop 22).take 4) with
  | .error e => .error e
  | .ok _rtp_tmstmp =>
  match int_id ((f.drop 26).take 4) with
  | .error e => .error e
  | .ok _rtp_ssid =>
  match index1 f 30 with
  | .error e => .error e
  | .ok _payload_type =>
  let _ts := _call_info &&& TS_CALL_MSK != 0
  let _isEnd := _call_info &&& END_MSK != 0
  let _rtp_len :=
    if _payload_type = SLOT1_VOICE ∨ _payload_type = SLOT2_VOICE then
      some ((f.drop 31).take 1)
    else none
  let _ambe :=
    if _payload_type = SLOT1_VOICE ∨ _payload_type = SLOT2_VOICE then
      some ((f.drop 33).take 19)
    else none
  if _payload_type = VOICE_TERM then
    match index1 f 31 with
    | .error e => .error e
    | .ok _rssi_tp =>
    match int_id ((f.drop 32).take 2) with
    | .error e => .error e
    | .ok _ltf =>
    match index1 f 34 with
    | .error e => .error e
    | .ok _rssi_status =>
    match index1 f 35 with
    | .error e => .error e
    | .ok _slot_type_sync =>
    match int_id ((f.drop 36).take 2) with
    | .error e => .error e
    | .ok _data_size =>
    let _ipsc_data := (f.drop 38).take (2 * _ltf - 4)
    match index1 f 38 with
    | .error e => .error e
    | .ok _full_lc_byte1 =>
    match index1 f 39 with
    | .error e => .error e
    | .ok _full_lc_fid =>
    match index1 f 40 with
    | .error e => .error e
    | .ok _svc_opts =>
    match int_id ((f.drop 41).take 3) with
    | .error e => .error e
    | .ok _pdu_dst =>
    match int_id ((f.drop 44).take 3) with
    | .error e => .error e
    | .ok _pdu_src =>
      .ok ⟨_packettype, _peerid, _ipsc_seq, _src_sub, _dst_sub, _call_type,
        _call_ctrl_info, _call_info, _rtp_byte_1, _rtp_byte_2, _rtp_seq,
        _rtp_tmstmp, _rtp_ssid, _payload_type, _ts, _isEnd,
        some ⟨_rssi_tp, _ltf, _rssi_status, _slot_type_sync, _data_size,
          _ipsc_data, _full_lc_byte1, _full_lc_fid, _svc_opts, _pdu_dst,
          _pdu_src⟩,
        _rtp_len, _ambe⟩
  else
    .ok ⟨_packettype, _peerid, _ipsc_seq, _src_sub, _dst_sub, _call_type,
      _call_ctrl_info, _call_info, _rtp_byte_1, _rtp_byte_2, _rtp_seq,
      _rtp_tmstmp, _rtp_ssid, _payload_type, _ts, _isEnd, none, _rtp_len,
      _ambe⟩

/-! ## Derived values and concrete test inputs -/

/-- The big-endian value of the two-byte field `d[20:22]` (the frame's rtp
sequence number as `group_voice` computes it). -/
def seqOf (d : List Nat) : Nat := 256 * d.getD 20 0 + d.getD 21 0

/-- A second bit-field extraction that follows the specification's words
instead of the source: "three **consecutive** 49-bit vocoder sub-frames"
taken from the start of the window, i.e. bit offsets 0, 49 and 98 (the
source instead slices at offsets 0, 50 and 100).  Used only to compare the
spec's reading against the source's behaviour. -/
def consecutivePayload (w : List Nat) : List Nat :=
  let f := bytesToBits w
  tobytes ((f.drop 0).take 49) ++ tobytes ((f.drop 49).take 49) ++
    tobytes ((f.drop 98).take 49)

/-- A 19-byte vocoder window whose only set bit is bit 49 — the first bit
after the first 49-bit sub-frame, which the source's slicing skips. -/
def cw19 : List Nat := [0, 0, 0, 0, 0, 0, 64, 0, 0, 0, 0, 0, 0, 0, 0, 0, 0, 0, 0]

/-- The spec's malformed-input test buffer: ten zero bytes. -/
def b10 : List Nat := List.replicate 10 0

/-- A 31-byte buffer whose payload-type byte (offset 30) is voice-term. -/
def b31term : List Nat := List.replicate 30 0 ++ [VOICE_TERM]

/-! ## Helper lemmas about slices and `int_id` -/

/-- A Python slice `d[k:k+m]` with `k` in range and `m > 0` is non-empty. -/
theorem slice_ne (b : List Nat) (k m : Nat) (hk : k < b.length) (hm : 0 < m) :
    (b.drop k).take m ≠ [] := by
  have : 0 < ((b.drop k).take m).length := by
    simp only [List.length_take, List.length_drop]
    omega
  exact List.ne_nil_of_length_pos this

/-- `int_id` succeeds on every non-empty byte string. -/
theorem int_id_ex (bs : List Nat) (h : bs ≠ []) : ∃ v, int_id bs = .ok v := by
  cases bs with
  | nil => exact absurd rfl h
  | cons b t => exact ⟨_, rfl⟩

/-- In-range Python indexing returns the byte at the index. -/
theorem index1_ok (bs : List Nat) (i : Nat) (h : i < bs.length) :
    index1 bs i = .ok (bs.getD i 0) := by
  simp [index1, List.get?_eq_getElem?, List.getElem?_eq_getElem h, List.getD]

/-- A one-byte slice at an in-range offset. -/
theorem slice_one (d : List Nat) (k : Nat) (h : k < d.length) :
    (d.drop k).take 1 = [d.getD k 0] := by
  rw [List.drop_eq_getElem_cons h]
  show [d[k]] = [d.getD k 0]
  simp [List.getElem?_eq_getElem h]

/-- `int_id` of a one-byte slice is the byte itself. -/
theorem int_id_byte (d : List Nat) (k : Nat) (h : k < d.length) :
    int_id ((d.drop k).take 1) = .ok (d.getD k 0) := by
  rw [slice_one d k h]
  simp [int_id]

/-- `int_id` of the slice `d[20:22]` evaluates to `seqOf d`. -/
theorem int_id_seq (d : List Nat) (h : 22 ≤ d.length) :
    int_id ((d.drop 20).take 2) = .ok (seqOf d) := by
  have h20 : 20 < d.length := by omega
  have h21 : 21 < d.length := by omega
  rw [List.drop_eq_getElem_cons h20,
    show d.drop 21 = d[21] :: d.drop 22 from List.drop_eq_getElem_cons h21]
  show Except.ok (256 * (256 * 0 + d[20]) + d[21]) = Except.ok (seqOf d)
  simp [seqOf, List.getElem?_eq_getElem h20, List.getElem?_eq_getElem h21]

/-! ## Characterization of `group_voice` on each payload type -/

/-- A voice-head frame whose stream differs from the stored one: `begin_call`
fires, the slot restarts with the new stream, `frame_count` 0 and
`lastSeq = _seq`, and exactly one begin-call event is emitted. -/
theorem gv_head_new (src dst ts : Nat) (e : Bool) (peer : Nat) (d : List Nat)
    (s : TXSlot) (hp : (d.drop 30).take 1 = [VOICE_HEAD]) (hl : 22 ≤ d.length)
    (hne : some (d.getD 5 0) ≠ s.stream_id) :
    group_voice src dst ts e peer d s =
      .ok (⟨some (d.getD 5 0), seqOf d, 0⟩,
        [Event.BeginCall ts src dst peer cc (seqOf d) (d.getD 5 0)]) := by
  have h5 := int_id_byte d 5 (by omega)
  have h20 := int_id_seq d hl
  have hne' : ¬ some (d[5]?.getD 0) = s.stream_id := by simpa using hne
  simp only [group_voice, hp, h20, h5]
  simp [begin_call, hne', VOICE_HEAD, VOICE_TERM, SLOT1_VOICE, SLOT2_VOICE]

/-- A voice-head frame whose stream equals the stored one: no event at all;
only `frame_count` and `lastSeq` change. -/
theorem gv_head_same (src dst ts : Nat) (e : Bool) (peer : Nat) (d : List Nat)
    (s : TXSlot) (hp : (d.drop 30).take 1 = [VOICE_HEAD]) (hl : 22 ≤ d.length)
    (heq : s.stream_id = some (d.getD 5 0)) :
    group_voice src dst ts e peer d s =
      .ok (⟨s.stream_id, seqOf d, s.frame_count + 1⟩, []) := by
  have h5 := int_id_byte d 5 (by omega)
  have h20 := int_id_seq d hl
  simp only [group_voice, hp, h20, h5]
  simp [heq, VOICE_HEAD, VOICE_TERM, SLOT1_VOICE, SLOT2_VOICE]

/-- A voice-term frame on an ACTIVE slot: one end-call event, slot goes IDLE. -/
theorem gv_term_active (src dst ts : Nat) (e : Bool) (peer : Nat) (d : List Nat)
    (s : TXSlot) (hp : (d.drop 30).take 1 = [VOICE_TERM]) (hl : 22 ≤ d.length)
    (sid : Nat) (hA : s.stream_id = some sid) :
    group_voice src dst ts e peer d s =
      .ok (⟨none, s.lastSeq, s.frame_count + 1⟩, [Event.EndCall]) := by
  have h20 := int_id_seq d hl
  simp only [group_voice, hp, h20]
  simp [end_call, hA, VOICE_HEAD, VOICE_TERM, SLOT1_VOICE, SLOT2_VOICE]

/-- A voice-term frame on an IDLE slot: no event; only `frame_count` moves. -/
theorem gv_term_idle (src dst ts : Nat) (e : Bool) (peer : Nat) (d : List Nat)
    (s : TXSlot) (hp : (d.drop 30).take 1 = [VOICE_TERM]) (hl : 22 ≤ d.length)
    (hI : s.stream_id = none) :
    group_voice src dst ts e peer d s =
      .ok (⟨none, s.lastSeq, s.frame_count + 1⟩, []) := by
  have h20 := int_id_seq d hl
  simp only [group_voice, hp, h20]
  simp [end_call, hI, VOICE_HEAD, VOICE_TERM, SLOT1_VOICE, SLOT2_VOICE]

/-- A voice-data frame (slot 1 or slot 2): `frame_count` is incremented,
`lastSeq` is updated to the frame's sequence, and one voice-payload event is
emitted carrying the extracted vocoder payload, the sequence, the stored
stream tag and the orphaned flag (`stream_id` empty). -/
theorem gv_voice (src dst ts : Nat) (e : Bool) (peer : Nat) (d : List Nat)
    (s : TXSlot)
    (hp : (d.drop 30).take 1 = [SLOT1_VOICE] ∨ (d.drop 30).take 1 = [SLOT2_VOICE])
    (hl : 22 ≤ d.length) :
    group_voice src dst ts e peer d s =
      .ok (⟨s.stream_id, seqOf d, s.frame_count + 1⟩,
        [Event.VoicePayload s.stream_id (seqOf d)
          (ambePayload ((d.drop 33).take 19)) (s.frame_count + 1)
          s.stream_id.isNone]) := by
  have h20 := int_id_seq d hl
  rcases hp with hp | hp <;>
  · simp only [group_voice, hp, h20]
    simp [export_voice, VOICE_HEAD, VOICE_TERM, SLOT1_VOICE, SLOT2_VOICE]

/-! ## Lemmas about the bit-field extractor -/

/-- Reading back the eight bits of a byte built from eight bits recovers
exactly those bits. -/
theorem bits8_byteVal : ∀ (b0 b1 b2 b3 b4 b5 b6 b7 : Bool),
    bits8 (byteVal [b0, b1, b2, b3, b4, b5, b6, b7]) =
      [b0, b1, b2, b3, b4, b5, b6, b7] := by
  decide

/-- `bytesToBits` inverts `bitsToBytes` on bit lists of whole-byte length. -/
theorem bytesToBits_bitsToBytes : ∀ l : List Bool, l.length % 8 = 0 →
    bytesToBits (bitsToBytes l) = l := by
  intro l h
  induction l using bitsToBytes.induct with
  | case1 b0 b1 b2 b3 b4 b5 b6 b7 rest ih =>
    have hr : rest.length % 8 = 0 := by
      simp only [List.length_cons] at h
      omega
    simp only [bitsToBytes, bytesToBits, List.flatMap_cons]
    rw [show bits8 (byteVal [b0, b1, b2, b3, b4, b5, b6, b7]) =
      [b0, b1, b2, b3, b4, b5, b6, b7] from bits8_byteVal b0 b1 b2 b3 b4 b5 b6 b7]
    simp [bytesToBits] at ih
    simp [ih hr]
  | case2 l hne =>
    rcases l with _ | ⟨b0, _ | ⟨b1, _ | ⟨b2, _ | ⟨b3, _ | ⟨b4, _ | ⟨b5, _ | ⟨b6, _ | ⟨b7, rest⟩⟩⟩⟩⟩⟩⟩⟩
    · rfl
    · simp at h
    · simp at h
    · simp at h
    · simp at h
    · simp at h
    · simp at h
    · simp at h
    · exact (hne _ _ _ _ _ _ _ _ _ rfl).elim

/-- Bit length of a byte string: eight bits per byte. -/
theorem bytesToBits_length (bs : List Nat) :
    (bytesToBits bs).length = 8 * bs.length := by
  induction bs with
  | nil => rfl
  | cons b t ih =>
    simp only [bytesToBits, List.flatMap_cons, List.length_append,
      List.length_cons] at *
    simp [bits8, ih]
    ring

/-- `tobytes` of a 49-bit slice: the padding is exactly seven trailing zero
bits, and reading the bits of the result gives the slice followed by that
padding. -/
theorem bytesToBits_tobytes49 (l : List Bool) (h : l.length = 49) :
    bytesToBits (tobytes l) = l ++ List.replicate 7 false := by
  rw [tobytes, h]
  norm_num
  rw [bytesToBits_bitsToBytes]
  simp [h]

/-- `tobytes` of a 49-bit slice is seven bytes long. -/
theorem tobytes_length49 (l : List Bool) (h : l.length = 49) :
    (tobytes l).length = 7 := by
  have := congrArg List.length (bytesToBits_tobytes49 l h)
  rw [bytesToBits_length] at this
  simp [h] at this
  omega

/-- `bytesToBits` distributes over byte-string concatenation. -/
theorem bytesToBits_append (a b : List Nat) :
    bytesToBits (a ++ b) = bytesToBits a ++ bytesToBits b := by
  simp [bytesToBits]

/-! ## Behaviour of `dumpIPSCFrame` by buffer length -/

/-- Any ten-byte buffer makes the decoder raise `ValueError`: the first
field slice to come up empty is `_frame[12:13]` (`_call_type`), and
`int_id` of an empty slice raises. -/
theorem dump_err_len10 (b : List Nat) (h10 : b.length = 10) :
    dumpIPSCFrame b = .error .valueError := by
  obtain ⟨v0, e0⟩ := int_id_ex _ (slice_ne b 0 1 (by omega) (by omega))
  obtain ⟨v1, e1⟩ := int_id_ex _ (slice_ne b 1 4 (by omega) (by omega))
  obtain ⟨v2, e2⟩ := int_id_ex _ (slice_ne b 5 1 (by omega) (by omega))
  obtain ⟨v3, e3⟩ := int_id_ex _ (slice_ne b 6 3 (by omega) (by omega))
  obtain ⟨v4, e4⟩ := int_id_ex _ (slice_ne b 9 3 (by omega) (by omega))
  have h12 : b.drop 12 = [] := List.drop_eq_nil_of_le (by omega)
  simp only [dumpIPSCFrame, e0, e1, e2, e3, e4, h12]
  rfl

/-- Any buffer of at least 31 bytes whose payload-type byte is not
voice-term decodes to a `CallFrame`. -/
theorem dump_ok_nonterm (b : List Nat) (h31 : 31 ≤ b.length)
    (hterm : b.getD 30 0 ≠ VOICE_TERM) :
    ∃ cf, dumpIPSCFrame b = .ok cf := by
  obtain ⟨v0, e0⟩ := int_id_ex _ (slice_ne b 0 1 (by omega) (by omega))
  obtain ⟨v1, e1⟩ := int_id_ex _ (slice_ne b 1 4 (by omega) (by omega))
  obtain ⟨v2, e2⟩ := int_id_ex _ (slice_ne b 5 1 (by omega) (by omega))
  obtain ⟨v3, e3⟩ := int_id_ex _ (slice_ne b 6 3 (by omega) (by omega))
  obtain ⟨v4, e4⟩ := int_id_ex _ (slice_ne b 9 3 (by omega) (by omega))
  obtain ⟨v5, e5⟩ := int_id_ex _ (slice_ne b 12 1 (by omega) (by omega))
  obtain ⟨v6, e6⟩ := int_id_ex _ (slice_ne b 13 4 (by omega) (by omega))
  obtain ⟨v7, e7⟩ := int_id_ex _ (slice_ne b 17 1 (by omega) (by omega))
  obtain ⟨v8, e8⟩ := int_id_ex _ (slice_ne b 18 1 (by omega) (by omega))
  obtain ⟨v9, e9⟩ := int_id_ex _ (slice_ne b 19 1 (by omega) (by omega))
  obtain ⟨v10, e10⟩ := int_id_ex _ (slice_ne b 20 2 (by omega) (by omega))
  obtain ⟨v11, e11⟩ := int_id_ex _ (slice_ne b 22 4 (by omega) (by omega))
  obtain ⟨v12, e12⟩ := int_id_ex _ (slice_ne b 26 4 (by omega) (by omega))
  have e13 := index1_ok b 30 (by omega)
  simp only [dumpIPSCFrame, e0, e1, e2, e3, e4, e5, e6, e7, e8, e9, e10, e11,
    e12, e13]
  rw [if_neg hterm]
  exact ⟨_, rfl⟩

/-- Any buffer of at least 45 bytes decodes to a `CallFrame`, voice-term
payloads included. -/
theorem dump_ok_45 (b : List Nat) (h45 : 45 ≤ b.length) :
    ∃ cf, dumpIPSCFrame b = .ok cf := by
  by_cases hterm : b.getD 30 0 = VOICE_TERM
  · obtain ⟨v0, e0⟩ := int_id_ex _ (slice_ne b 0 1 (by omega) (by omega))
    obtain ⟨v1, e1⟩ := int_id_ex _ (slice_ne b 1 4 (by omega) (by omega))
    obtain ⟨v2, e2⟩ := int_id_ex _ (slice_ne b 5 1 (by omega) (by omega))
    obtain ⟨v3, e3⟩ := int_id_ex _ (slice_ne b 6 3 (by omega) (by omega))
    obtain ⟨v4, e4⟩ := int_id_ex _ (slice_ne b 9 3 (by omega) (by omega))
    obtain ⟨v5, e5⟩ := int_id_ex _ (slice_ne b 12 1 (by omega) (by omega))
    obtain ⟨v6, e6⟩ := int_id_ex _ (slice_ne b 13 4 (by omega) (by omega))
    obtain ⟨v7, e7⟩ := int_id_ex _ (slice_ne b 17 1 (by omega) (by omega))
    obtain ⟨v8, e8⟩ := int_id_ex _ (slice_ne b 18 1 (by omega) (by omega))
    obtain ⟨v9, e9⟩ := int_id_ex _ (slice_ne b 19 1 (by omega) (by omega))
    obtain ⟨v10, e10⟩ := int_id_ex _ (slice_ne b 20 2 (by omega) (by omega))
    obtain ⟨v11, e11⟩ := int_id_ex _ (slice_ne b 22 4 (by omega) (by omega))
    obtain ⟨v12, e12⟩ := int_id_ex _ (slice_ne b 26 4 (by omega) (by omega))
    have e13 := index1_ok b 30 (by omega)
    have e14 := index1_ok b 31 (by omega)
    obtain ⟨v15, e15⟩ := int_id_ex _ (slice_ne b 32 2 (by omega) (by omega))
    have e16 := index1_ok b 34 (by omega)
    have e17 := index1_ok b 35 (by omega)
    obtain ⟨v18, e18⟩ := int_id_ex _ (slice_ne b 36 2 (by omega) (by omega))
    have e19 := index1_ok b 38 (by omega)
    have e20 := index1_ok b 39 (by omega)
    have e21 := index1_ok b 40 (by omega)
    obtain ⟨v22, e22⟩ := int_id_ex _ (slice_ne b 41 3 (by omega) (by omega))
    obtain ⟨v23, e23⟩ := int_id_ex _ (slice_ne b 44 3 (by omega) (by omega))
    simp only [dumpIPSCFrame, e0, e1, e2, e3, e4, e5, e6, e7, e8, e9, e10,
      e11, e12, e13, e14, e15, e16, e17, e18, e19, e20, e21, e22, e23]
    rw [if_pos hterm]
    exact ⟨_, rfl⟩
  · exact dump_ok_nonterm b (by omega) hterm

/-! ## Claims -/

/-- Claim C1 (amended): for every full 19-byte vocoder window, the bit-field
extraction produces a 21-byte payload made of three byte-aligned 7-byte
blocks; block `k` holds the 49-bit sub-frame starting at bit offset `50*k`
(offsets 0, 50, 100 — 50-bit strides, not back-to-back 49-bit spans), every
source bit at its corresponding output bit position, followed by seven zero
padding bits in the low-order positions of the block. -/
theorem c1_extraction_blocks (w : List Nat) (hw : w.length = 19) :
    (ambePayload w).length = 21 ∧
    bytesToBits (ambePayload w) =
      ((bytesToBits w).take 49 ++ List.replicate 7 false) ++
      (((bytesToBits w).drop 50).take 49 ++ List.replicate 7 false) ++
      (((bytesToBits w).drop 100).take 49 ++ List.replicate 7 false) := by
  have hf : (bytesToBits w).length = 152 := by
    rw [bytesToBits_length, hw]
  have l1 : ((bytesToBits w).take 49).length = 49 := by
    rw [List.length_take, hf]; omega
  have l2 : (((bytesToBits w).drop 50).take 49).length = 49 := by
    rw [List.length_take, List.length_drop, hf]; omega
  have l3 : (((bytesToBits w).drop 100).take 49).length = 49 := by
    rw [List.length_take, List.length_drop, hf]; omega
  constructor
  · simp only [ambePayload, List.drop_zero, List.length_append,
      tobytes_length49 _ l1, tobytes_length49 _ l2, tobytes_length49 _ l3]
  · simp only [ambePayload, List.drop_zero, bytesToBits_append,
      bytesToBits_tobytes49 _ l1, bytesToBits_tobytes49 _ l2,
      bytesToBits_tobytes49 _ l3, List.append_assoc]

/-- Claim C1 witness: the amended extraction theorem applied to the all-zero
19-byte window. -/
theorem c1_extraction_blocks_witness :
    (ambePayload (List.replicate 19 0)).length = 21 :=
  (c1_extraction_blocks (List.replicate 19 0) (by decide)).1

/-- Claim C1 counterexample: on the window whose only set bit is bit 49, the
source's extraction (offsets 0/50/100) drops that bit entirely — the output
is all zero — whereas extracting three *consecutive* 49-bit sub-frames
(offsets 0/49/98), as the claim reads, would reproduce it; so the claim as
stated is false of the code. -/
theorem c1_consecutive_counterexample :
    ambePayload cw19 = List.replicate 21 0 ∧
    ambePayload cw19 ≠ consecutivePayload cw19 := by
  decide

/-- Claim C2: from IDLE, the frame sequence
[voice-head(stream 5), slot1-voice, slot1-voice, voice-term] on slot 0
yields exactly one `BeginCall` with stream 5, exactly two `VoicePayload`
events whose `frame_count` values are 1 then 2, and exactly one `EndCall`,
and the slot ends IDLE (`stream_id = none`). -/
theorem c2_call_lifecycle :
    runFrames 1 2 0 false 3
      [mkFrame VOICE_HEAD 5 1, mkFrame SLOT1_VOICE 0 2, mkFrame SLOT1_VOICE 0 3,
        mkFrame VOICE_TERM 0 4] initSlot =
    .ok (⟨none, 3, 3⟩,
      [Event.BeginCall 0 1 2 3 1 1 5,
       Event.VoicePayload (some 5) 2 (List.replicate 21 0) 1 false,
       Event.VoicePayload (some 5) 3 (List.replicate 21 0) 2 false,
       Event.EndCall]) := by
  decide

/-- Claim C3 (amended): a 10-byte buffer makes the decoder fail by raising an
uncaught `ValueError` — the code has no `MalformedFrame` error value or
length guard — and the decoder, a pure function of the buffer alone, touches
no slot state; a buffer of at least 31 bytes decodes to a `CallFrame`
provided its payload-type byte is not voice-term, and any buffer of at least
45 bytes decodes unconditionally (a voice-term frame needs the extra header
fields up to offset 46, so 31 bytes are not enough for it). -/
theorem c3_decode_lengths (b : List Nat) :
    (b.length = 10 → dumpIPSCFrame b = .error .valueError) ∧
    (31 ≤ b.length → b.getD 30 0 ≠ VOICE_TERM → ∃ cf, dumpIPSCFrame b = .ok cf) ∧
    (45 ≤ b.length → ∃ cf, dumpIPSCFrame b = .ok cf) :=
  ⟨dump_err_len10 b, dump_ok_nonterm b, dump_ok_45 b⟩

/-- Claim C3 witness: the amended decode theorem applied to the 10-byte
buffer, a 31-byte non-term buffer, and a 45-byte buffer. -/
theorem c3_decode_lengths_witness :
    dumpIPSCFrame b10 = .error .valueError ∧
    (∃ cf, dumpIPSCFrame (List.replicate 31 0) = .ok cf) ∧
    (∃ cf, dumpIPSCFrame (List.replicate 45 0) = .ok cf) :=
  ⟨(c3_decode_lengths b10).1 (by decide),
   (c3_decode_lengths (List.replicate 31 0)).2.1 (by decide) (by decide),
   (c3_decode_lengths (List.replicate 45 0)).2.2 (by decide)⟩

/-- Claim C3 counterexample: a 31-byte buffer whose payload-type byte is
voice-term does *not* decode to a `CallFrame` — the voice-term branch indexes
`_frame[31]` and raises `IndexError` — refuting "for every buffer of at least
31 bytes, decode produces a CallFrame"; and the 10-byte buffer fails with a
raised `ValueError`, not a `MalformedFrame` value (no such error exists in
the code). -/
theorem c3_term31_counterexample :
    b31term.length = 31 ∧ dumpIPSCFrame b31term = .error .indexError ∧
    dumpIPSCFrame b10 = .error .valueError := by
  decide

/-- Claim C4: on an ACTIVE slot, a voice-head frame with a differing stream
identifier re-triggers the begin-call transition exactly as from IDLE — the
resulting state and single begin-call event are those of a fresh call, equal
to what processing the same frame from an IDLE slot gives — and no end-call
event is synthesized; concretely, [voice-head(5), voice-head(9)] yields two
`BeginCall` events (streams 5 then 9) and zero `EndCall` events. -/
theorem c4_preemption (src dst ts : Nat) (e : Bool) (peer : Nat) (d : List Nat)
    (s : TXSlot) (t : Nat) (hp : (d.drop 30).take 1 = [VOICE_HEAD])
    (hl : 22 ≤ d.length) (hA : s.stream_id = some t) (hne : d.getD 5 0 ≠ t) :
    group_voice src dst ts e peer d s =
      .ok (⟨some (d.getD 5 0), seqOf d, 0⟩,
        [Event.BeginCall ts src dst peer cc (seqOf d) (d.getD 5 0)]) ∧
    group_voice src dst ts e peer d s = group_voice src dst ts e peer d initSlot ∧
    runFrames 1 2 0 false 3 [mkFrame VOICE_HEAD 5 1, mkFrame VOICE_HEAD 9 2]
        initSlot =
      .ok (⟨some 9, 2, 0⟩,
        [Event.BeginCall 0 1 2 3 1 1 5, Event.BeginCall 0 1 2 3 1 2 9]) := by
  have hne' : some (d.getD 5 0) ≠ s.stream_id := by
    rw [hA]
    simpa using hne
  have h1 := gv_head_new src dst ts e peer d s hp hl hne'
  refine ⟨h1, ?_, by decide⟩
  rw [h1, gv_head_new src dst ts e peer d initSlot hp hl (by simp [initSlot])]

/-- Claim C4 witness: preempting an ACTIVE slot (stream 5) with a head frame
for stream 9. -/
theorem c4_preemption_witness :
    group_voice 1 2 0 false 3 (mkFrame VOICE_HEAD 9 7) ⟨some 5, 4, 6⟩ =
      .ok (⟨some 9, 7, 0⟩, [Event.BeginCall 0 1 2 3 1 7 9]) :=
  (c4_preemption 1 2 0 false 3 (mkFrame VOICE_HEAD 9 7) ⟨some 5, 4, 6⟩ 5
    (by decide) (by decide) rfl (by decide)).1

/-- Claim C5: a voice-term frame delivered to an IDLE slot produces no event
and no error; the slot stays IDLE and only the frame counter moves (the
source increments `frame_count` for every received frame before branching on
the payload type). -/
theorem c5_term_idle_noop (src dst ts : Nat) (e : Bool) (peer : Nat)
    (d : List Nat) (s : TXSlot) (hp : (d.drop 30).take 1 = [VOICE_TERM])
    (hl : 22 ≤ d.length) (hI : s.stream_id = none) :
    group_voice src dst ts e peer d s =
      .ok (⟨none, s.lastSeq, s.frame_count + 1⟩, []) :=
  gv_term_idle src dst ts e peer d s hp hl hI

/-- Claim C5 witness: a duplicate voice-term frame on an IDLE slot. -/
theorem c5_term_idle_noop_witness :
    group_voice 1 2 0 false 3 (mkFrame VOICE_TERM 0 9) ⟨none, 8, 4⟩ =
      .ok (⟨none, 8, 5⟩, []) :=
  c5_term_idle_noop 1 2 0 false 3 (mkFrame VOICE_TERM 0 9) ⟨none, 8, 4⟩
    (by decide) (by decide) rfl

/-- Claim C6: a voice-data frame delivered to a slot that is not ACTIVE does
not fail — a voice-payload event is still emitted, tied to no stream, and
its orphaned flag (a test-visible event field) is set. -/
theorem c6_orphan_flagged (src dst ts : Nat) (e : Bool) (peer : Nat)
    (d : List Nat) (s : TXSlot)
    (hp : (d.drop 30).take 1 = [SLOT1_VOICE] ∨ (d.drop 30).take 1 = [SLOT2_VOICE])
    (hl : 22 ≤ d.length) (hI : s.stream_id = none) :
    group_voice src dst ts e peer d s =
      .ok (⟨none, seqOf d, s.frame_count + 1⟩,
        [Event.VoicePayload none (seqOf d) (ambePayload ((d.drop 33).take 19))
          (s.frame_count + 1) true]) := by
  have h := gv_voice src dst ts e peer d s hp hl
  rw [hI] at h
  simpa using h

/-- Claim C6 witness: a slot2-voice frame on an IDLE slot emits an orphaned
voice-payload event. -/
theorem c6_orphan_flagged_witness :
    group_voice 1 2 0 false 3 (mkFrame SLOT2_VOICE 0 9) ⟨none, 0, 0⟩ =
      .ok (⟨none, 9, 1⟩,
        [Event.VoicePayload none 9 (List.replicate 21 0) 1 true]) :=
  c6_orphan_flagged 1 2 0 false 3 (mkFrame SLOT2_VOICE 0 9) ⟨none, 0, 0⟩
    (by decide) (by decide) rfl

/-- Claim C7: a slot1- or slot2-voice frame on an ACTIVE slot increments
`frame_count`, updates `lastSeq` to the frame's sequence value, and emits one
voice-payload event carrying the extracted payload and the frame's rtp
sequence, tagged with the active stream identifier (orphaned flag clear). -/
theorem c7_voice_active (src dst ts : Nat) (e : Bool) (peer : Nat)
    (d : List Nat) (s : TXSlot) (sid : Nat)
    (hp : (d.drop 30).take 1 = [SLOT1_VOICE] ∨ (d.drop 30).take 1 = [SLOT2_VOICE])
    (hl : 22 ≤ d.length) (hA : s.stream_id = some sid) :
    group_voice src dst ts e peer d s =
      .ok (⟨some sid, seqOf d, s.frame_count + 1⟩,
        [Event.VoicePayload (some sid) (seqOf d)
          (ambePayload ((d.drop 33).take 19)) (s.frame_count + 1) false]) := by
  have h := gv_voice src dst ts e peer d s hp hl
  rw [hA] at h
  simpa using h

/-- Claim C7 witness: a slot1-voice frame on an ACTIVE slot (stream 5). -/
theorem c7_voice_active_witness :
    group_voice 1 2 0 false 3 (mkFrame SLOT1_VOICE 0 9) ⟨some 5, 1, 3⟩ =
      .ok (⟨some 5, 9, 4⟩,
        [Event.VoicePayload (some 5) 9 (List.replicate 21 0) 4 false]) :=
  c7_voice_active 1 2 0 false 3 (mkFrame SLOT1_VOICE 0 9) ⟨some 5, 1, 3⟩ 5
    (by decide) (by decide) rfl

/-- Claim C8: the decoder is deterministic and side-effect-free.  In this
embedding `dumpIPSCFrame` is a pure function of the byte buffer alone — it
takes no slot state and returns only the decoded record, so two calls on the
same bytes yield identical `CallFrame` values and neither call can mutate
the buffer or any other state. -/
theorem c8_decode_deterministic (b1 b2 : List Nat) (h : b1 = b2) :
    dumpIPSCFrame b1 = dumpIPSCFrame b2 := by
  rw [h]

/-- Claim C8 witness: two decode calls on the same 31-byte buffer agree. -/
theorem c8_decode_deterministic_witness :
    dumpIPSCFrame (List.replicate 31 0) = dumpIPSCFrame (List.replicate 31 0) :=
  c8_decode_deterministic (List.replicate 31 0) (List.replicate 31 0) rfl

/-- Claim C9: on a voice-head frame, a begin-call event is emitted iff the
frame's stream identifier differs from the slot's stored one: if they are
equal the call produces no event at all (only `frame_count` and `lastSeq`
move); the emitted event list is empty iff the identifiers match; and after
processing any voice-head frame, processing the same frame again emits
nothing — begin-call fires at most once for the same head. -/
theorem c9_begin_call_iff (src dst ts : Nat) (e : Bool) (peer : Nat)
    (d : List Nat) (s : TXSlot) (hp : (d.drop 30).take 1 = [VOICE_HEAD])
    (hl : 22 ≤ d.length) :
    (s.stream_id = some (d.getD 5 0) →
      group_voice src dst ts e peer d s =
        .ok (⟨s.stream_id, seqOf d, s.frame_count + 1⟩, [])) ∧
    (∀ s' evs, group_voice src dst ts e peer d s = .ok (s', evs) →
      (evs = [] ↔ s.stream_id = some (d.getD 5 0))) ∧
    (∀ s1 e1, group_voice src dst ts e peer d s = .ok (s1, e1) →
      group_voice src dst ts e peer d s1 =
        .ok (⟨s1.stream_id, seqOf d, s1.frame_count + 1⟩, [])) := by
  by_cases h : s.stream_id = some (d.getD 5 0)
  · have hsame := gv_head_same src dst ts e peer d s hp hl h
    refine ⟨fun _ => hsame, ?_, ?_⟩
    · intro s' evs hok
      rw [hsame] at hok
      simp only [Except.ok.injEq, Prod.mk.injEq] at hok
      rw [← hok.2]
      exact iff_of_true rfl h
    · intro s1 e1 hok
      rw [hsame] at hok
      simp only [Except.ok.injEq, Prod.mk.injEq] at hok
      obtain ⟨hs, he⟩ := hok
      subst hs
      exact gv_head_same src dst ts e peer d _ hp hl h
  · have hnew := gv_head_new src dst ts e peer d s hp hl
      (fun he => h he.symm)
    refine ⟨fun hc => absurd hc h, ?_, ?_⟩
    · intro s' evs hok
      rw [hnew] at hok
      simp only [Except.ok.injEq, Prod.mk.injEq] at hok
      rw [← hok.2]
      exact iff_of_false (by simp) h
    · intro s1 e1 hok
      rw [hnew] at hok
      simp only [Except.ok.injEq, Prod.mk.injEq] at hok
      obtain ⟨hs, he⟩ := hok
      subst hs
      exact gv_head_same src dst ts e peer d _ hp hl rfl

/-- Claim C9 witness: the iff applied to an ACTIVE slot already carrying the
head frame's stream (stream 7): no event is emitted. -/
theorem c9_begin_call_iff_witness :
    group_voice 1 2 0 false 3 (mkFrame VOICE_HEAD 7 9) ⟨some 7, 4, 6⟩ =
      .ok (⟨some 7, 9, 7⟩, []) :=
  (c9_begin_call_iff 1 2 0 false 3 (mkFrame VOICE_HEAD 7 9) ⟨some 7, 4, 6⟩
    (by decide) (by decide)).1 (by decide)

/-- Claim C10: the stream identifier a voice-head frame installs is exactly
the single byte at offset 5 of the buffer (`int_id(_data[5:6])`), so it is
an 8-bit value (below 256 for any well-formed byte buffer); consequently two
head frames whose bytes at offset 5 coincide are treated as the same stream:
after the first is processed, the second emits no begin-call event. -/
theorem c10_stream_id_byte5 :
    (∀ d : List Nat, 6 ≤ d.length →
      int_id ((d.drop 5).take 1) = .ok (d.getD 5 0)) ∧
    (∀ d : List Nat, (∀ x ∈ d, x < 256) → d.getD 5 0 < 256) ∧
    (∀ (src dst ts : Nat) (e : Bool) (peer : Nat) (s : TXSlot)
      (d1 d2 : List Nat),
      (d1.drop 30).take 1 = [VOICE_HEAD] → (d2.drop 30).take 1 = [VOICE_HEAD] →
      22 ≤ d1.length → 22 ≤ d2.length → d1.getD 5 0 = d2.getD 5 0 →
      ∀ s1 e1, group_voice src dst ts e peer d1 s = .ok (s1, e1) →
        group_voice src dst ts e peer d2 s1 =
          .ok (⟨s1.stream_id, seqOf d2, s1.frame_count + 1⟩, [])) := by
  refine ⟨fun d h => int_id_byte d 5 (by omega), ?_, ?_⟩
  · intro d hw
    by_cases h5 : 5 < d.length
    · have hm : d[5] ∈ d := List.getElem_mem h5
      have : d.getD 5 0 = d[5] := by
        simp [List.getElem?_eq_getElem h5]
      rw [this]
      exact hw _ hm
    · have : d[5]? = none := List.getElem?_eq_none (by omega)
      simp [this]
  · intro src dst ts e peer s d1 d2 hp1 hp2 hl1 hl2 hcoin s1 e1 hok
    by_cases h : s.stream_id = some (d1.getD 5 0)
    · rw [gv_head_same src dst ts e peer d1 s hp1 hl1 h] at hok
      simp only [Except.ok.injEq, Prod.mk.injEq] at hok
      obtain ⟨hs, he⟩ := hok
      subst hs
      refine gv_head_same src dst ts e peer d2 _ hp2 hl2 ?_
      show s.stream_id = some (d2.getD 5 0)
      rw [h, hcoin]
    · rw [gv_head_new src dst ts e peer d1 s hp1 hl1 (fun he => h he.symm)] at hok
      simp only [Except.ok.injEq, Prod.mk.injEq] at hok
      obtain ⟨hs, he⟩ := hok
      subst hs
      refine gv_head_same src dst ts e peer d2 _ hp2 hl2 ?_
      show some (d1.getD 5 0) = some (d2.getD 5 0)
      rw [hcoin]

/-- Claim C10 witness: two head frames sharing byte 5 (stream 7) but with
different sequence numbers; the second emits no begin-call. -/
theorem c10_stream_id_byte5_witness :
    int_id (((mkFrame VOICE_HEAD 7 9).drop 5).take 1) = .ok 7 ∧
    group_voice 1 2 0 false 3 (mkFrame VOICE_HEAD 7 11) ⟨some 7, 9, 0⟩ =
      .ok (⟨some 7, 11, 1⟩, []) :=
  ⟨c10_stream_id_byte5.1 (mkFrame VOICE_HEAD 7 9) (by decide),
   c10_stream_id_byte5.2.2 1 2 0 false 3 initSlot
     (mkFrame VOICE_HEAD 7 9) (mkFrame VOICE_HEAD 7 11)
     (by decide) (by decide) (by decide) (by decide) (by decide)
     ⟨some 7, 9, 0⟩ [Event.BeginCall 0 1 2 3 1 9 7] (by decide)⟩
